import Mathlib

/-!
# Verification of the spoon-core stock agent

Shallow embedding of `stock_mcp_server.py` and `spoonos_stock_agent.py`.

Conventions of the embedding:
* Python strings are Lean `String`s; the repository only ever handles ASCII
  input, so `Char.toUpper`/`Char.toLower` model Python `str.upper`/`str.lower`,
  and the ASCII reading of `\b`, `str.isalnum`, `str.split()` and `str.strip()`
  is used.
* A Python callable that may raise is a Lean function into `Except String α`;
  the exception's `str(e)` is the `String` payload.
* Python dicts produced by the tools are association lists `Dict`
  (`List (String × Val)`); the provider's rows are already-normalized `Row`
  records, so the `float(...)`/`int(...)` conversions of the source are the
  identity here.  Prices are modelled as rationals; `"{:.2f}"` is modelled by
  round-half-even at two decimals, which agrees with CPython on every value
  the development evaluates.
* `yfinance`'s `Ticker(symbol).history(period, interval)` is an abstract
  provider `Fetch`; an empty dataframe is the empty row list, a raised
  exception is `Except.error`.
-/

/-- Python's single-quote character, kept out of string literals. -/
def quoteMark : String := String.singleton (Char.ofNat 39)

/-- ASCII whitespace stripped by Python's `str.strip()` / split by `str.split()`:
space, tab, newline, carriage return, vertical tab, form feed. -/
def pyIsSpace (c : Char) : Bool :=
  c = ' ' || c = '\t' || c = '\n' || c = '\r' || c.val == 11 || c.val == 12

/-- Python `str.strip()` (ASCII whitespace). -/
def pyStrip (s : String) : String :=
  String.mk (((s.data.dropWhile pyIsSpace).reverse.dropWhile pyIsSpace).reverse)

/-- Python `str.upper()` (ASCII). -/
def pyUpper (s : String) : String := String.mk (s.data.map Char.toUpper)

/-- Python `str.lower()` (ASCII). -/
def pyLower (s : String) : String := String.mk (s.data.map Char.toLower)

/-- A regex word character `\w` (ASCII): letters, digits, underscore. -/
def isWordChar (c : Char) : Bool :=
  ('A' ≤ c && c ≤ 'Z') || ('a' ≤ c && c ≤ 'z') || ('0' ≤ c && c ≤ '9') || c = '_'

/-- ASCII uppercase letter, the character class `[A-Z]`. -/
def isUpperAlpha (c : Char) : Bool := 'A' ≤ c && c ≤ 'Z'

/-- ASCII `str.isalnum`: letters and digits. -/
def isAlnumA (c : Char) : Bool :=
  ('A' ≤ c && c ≤ 'Z') || ('a' ≤ c && c ≤ 'z') || ('0' ≤ c && c ≤ '9')

/-- Accumulator pass for `runsBy`: `acc` holds the current run, reversed. -/
def runsByAux (p : Char → Bool) : List Char → List Char → List (List Char)
  | [], acc => if acc.isEmpty then [] else [acc.reverse]
  | c :: cs, acc =>
    if p c then runsByAux p cs (c :: acc)
    else if acc.isEmpty then runsByAux p cs [] else acc.reverse :: runsByAux p cs []

/-- The maximal runs of characters satisfying `p`, in order, skipping
characters that do not satisfy `p`. -/
def runsBy (p : Char → Bool) (l : List Char) : List (List Char) :=
  runsByAux p l []

/-- Whether a word-character run is a whole-word match of `[A-Z]{1,5}`. -/
def isSymbolToken (r : List Char) : Bool :=
  r.all isUpperAlpha && decide (1 ≤ r.length) && decide (r.length ≤ 5)

/-- `re.findall(r'\b[A-Z]{1,5}\b', s)`.  Since `\b` separates word characters
from non-word characters, a match of the pattern is exactly a maximal run of
word characters that consists of 1–5 uppercase letters (inside a longer run,
or in a run containing a digit or underscore, some neighbour of the candidate
letters is a word character, so the closing `\b` fails at every backtracking
width); `findall` returns those runs left to right. -/
def findallSymbols (s : String) : List (List Char) :=
  (runsBy isWordChar s.data).filter isSymbolToken

/-- The fallback allow-list `common_symbols` of `extract_symbol`. -/
def commonSymbols : List String :=
  ["msft", "aapl", "googl", "goog", "amzn", "tsla", "nvda", "meta",
   "nflx", "amd", "intc", "crm", "orcl", "adbe", "pypl", "uber",
   "lyft", "snap", "twtr", "pinterest", "zoom", "shopify", "spotify"]

/-- The fallback loop of `extract_symbol`: for each whitespace-separated word,
strip non-alphanumeric characters and return the first cleaned word found in
`common_symbols`, uppercased; otherwise the default "AAPL". -/
def fallbackScan : List (List Char) → String
  | [] => "AAPL"
  | w :: ws =>
    let cw := w.filter isAlnumA
    if commonSymbols.contains (String.mk cw) then pyUpper (String.mk cw)
    else fallbackScan ws

/-- `StockAgent.extract_symbol`: first `\b[A-Z]{1,5}\b` match of the uppercased
input; else the allow-list fallback over lowercased words; else "AAPL". -/
def extract_symbol (user_input : String) : String :=
  match findallSymbols (pyUpper user_input) with
  | m :: _ => String.mk m
  | [] => fallbackScan (runsBy (fun c => !pyIsSpace c) (pyLower user_input).data)

/-- Python's substring test `kw in hay`. -/
def containsSub (n : List Char) : List Char → Bool
  | [] => n.isEmpty
  | c :: t => List.isPrefixOf n (c :: t) || containsSub n t

/-- `kw in hay` on strings. -/
def pyContains (hay kw : String) : Bool := containsSub kw.data hay.data


/-! ## Data model (`stock_mcp_server.py`) -/

/-- One normalized OHLCV row, as built by the tools from a provider row
(`open` is a Lean keyword, hence the field name `open_`). -/
structure Row where
  date : String
  open_ : Rat
  high : Rat
  low : Rat
  close : Rat
  volume : Int
deriving DecidableEq, Repr

/-- A Python dict value appearing in a tool result. -/
inductive Val where
  | str (s : String)
  | int (n : Int)
  | num (q : Rat)
  | rows (rs : List Row)
deriving DecidableEq, Repr

/-- A Python dict returned over the tool boundary, as an association list. -/
def Dict := List (String × Val)
deriving DecidableEq, Repr

/-- The `arguments` dict of a tool invocation (all values are strings here). -/
def Args := List (String × String)
deriving DecidableEq, Repr

/-- `args.get(key, default)`. -/
def argGet (args : Args) (key dflt : String) : String :=
  (List.lookup key args).getD dflt

/-- The provider boundary `yf.Ticker(symbol).history(period, interval)`:
returns the rows, or `Except.error (str e)` when the call raises.  The quote
tool's `history(period="1d")` uses yfinance's default interval `"1d"`. -/
def Fetch := String → String → String → Except String (List Row)

/-- The error dict `{"symbol": symbol, "error": msg}`. -/
def errKV (symbol msg : String) : Dict :=
  [("symbol", Val.str symbol), ("error", Val.str msg)]

/-- `get_stock_quote_tool`: latest daily OHLCV row for `args["symbol"]`
(default "AAPL", uppercased); empty history or a raised provider error become
an error dict. -/
def get_stock_quote_tool (fetch : Fetch) (args : Args) : Dict :=
  let symbol := pyUpper (argGet args "symbol" "AAPL")
  match fetch symbol "1d" "1d" with
  | .error e => errKV symbol ("Failed to fetch data: " ++ e)
  | .ok [] =>
      errKV symbol ("No data found for symbol " ++ quoteMark ++ symbol ++ quoteMark ++ ".")
  | .ok (r :: rs) =>
      let latest := (r :: rs).getLastD r
      [("symbol", Val.str symbol), ("date", Val.str latest.date),
       ("open", Val.num latest.open_), ("high", Val.num latest.high),
       ("low", Val.num latest.low), ("close", Val.num latest.close),
       ("volume", Val.int latest.volume)]

/-- `get_stock_historical_data_tool`: OHLCV rows for `args["symbol"]`
(default "AAPL", uppercased) over `args["period"]` (default "1mo") at
`args["interval"]` (default "1d"); empty history or a raised provider error
become an error dict. -/
def get_stock_historical_data_tool (fetch : Fetch) (args : Args) : Dict :=
  let symbol := pyUpper (argGet args "symbol" "AAPL")
  let period := argGet args "period" "1mo"
  let interval := argGet args "interval" "1d"
  match fetch symbol period interval with
  | .error e => errKV symbol ("Failed to fetch historical data: " ++ e)
  | .ok [] =>
      errKV symbol ("No data found for symbol " ++ quoteMark ++ symbol ++ quoteMark ++ ".")
  | .ok (r :: rs) =>
      [("symbol", Val.str symbol), ("period", Val.str period),
       ("interval", Val.str interval),
       ("data_points", Val.int (Int.ofNat (r :: rs).length)),
       ("data", Val.rows (r :: rs))]

/-! ## Tool registry (`MCPServer`) -/

/-- The registry: a name, and a name→callable mapping.  A registered callable
may raise (`Except.error`). -/
structure MCPServer where
  name : String
  tools : List (String × (Args → Except String Dict))

/-- `register_tool`: stores the callable under the name.  Prepending together
with first-match lookup models Python dict assignment (last write wins). -/
def MCPServer.register_tool (s : MCPServer) (n : String) (f : Args → Except String Dict) :
    MCPServer :=
  { s with tools := (n, f) :: s.tools }

/-- `MCPServer.call_tool`: unknown names yield an error dict; a callable that
raises is caught and its message wrapped in an error dict; otherwise the
callable's result is returned unchanged.  The function is total: no exception
escapes the registry. -/
def MCPServer.call_tool (s : MCPServer) (tool_name : String) (arguments : Args) : Dict :=
  match List.lookup tool_name s.tools with
  | none => [("error", Val.str ("Tool " ++ quoteMark ++ tool_name ++ quoteMark ++ " not found."))]
  | some f =>
    match f arguments with
    | .ok d => d
    | .error e => [("error", Val.str ("Tool execution failed: " ++ e))]

/-- The module-level `server` of `stock_mcp_server.py` with its two registered
tools.  The two tool functions guard their whole bodies with `try/except` and
so never raise, hence the `.ok`. -/
def server (fetch : Fetch) : MCPServer :=
  ((MCPServer.mk "stock-mcp" []).register_tool "get_stock_quote"
      (fun a => .ok (get_stock_quote_tool fetch a))).register_tool
    "get_stock_historical_data"
      (fun a => .ok (get_stock_historical_data_tool fetch a))

/-! ## Agent (`spoonos_stock_agent.py`) -/

/-- Round half to even, CPython's rounding for `"{:.2f}"`. -/
def rhe (r : Rat) : Int :=
  let f := r.floor
  let d := r - (f : Rat)
  if d < (1 : Rat) / 2 then f
  else if (1 : Rat) / 2 < d then f + 1
  else if f % 2 = 0 then f else f + 1

/-- Python `"{x:.2f}"` on the rational model of the float `x`. -/
def fmt2 (q : Rat) : String :=
  let c := rhe (q * 100)
  (if c < 0 then "-" else "") ++ Nat.repr (c.natAbs / 100) ++ "." ++
    (if c.natAbs % 100 < 10 then "0" else "") ++ Nat.repr (c.natAbs % 100)

/-- Insert a comma after every three characters: input and output are
least-significant-digit-first digit lists. -/
def commaChunks : List Char → List Char
  | d1 :: d2 :: d3 :: d4 :: rest => d1 :: d2 :: d3 :: ',' :: commaChunks (d4 :: rest)
  | l => l

/-- Python `"{v:,}"` on an integer: decimal digits, thousands-separated. -/
def fmtThousands (v : Int) : String :=
  (if v < 0 then "-" else "") ++
    String.mk ((commaChunks (Nat.repr v.natAbs).data.reverse).reverse)

/-- Python `"{v}"` on an integer. -/
def intStr (v : Int) : String :=
  (if v < 0 then "-" else "") ++ Nat.repr v.natAbs

/-- One line of the historical listing (without the trailing newline):
`f"{date}: O={open:.2f} H={high:.2f} L={low:.2f} C={close:.2f} V={volume:,}"`. -/
def formatPoint (p : Row) : String :=
  p.date ++ ": O=" ++ fmt2 p.open_ ++ " H=" ++ fmt2 p.high ++ " L=" ++ fmt2 p.low ++
    " C=" ++ fmt2 p.close ++ " V=" ++ fmtThousands p.volume

/-- The per-row lines of the historical response (`handle_request`,
lines 144–154): all rows when there are at most 10, otherwise the first five,
a literal "..." line, and the last five (`data[:5]`, `data[-5:]`). -/
def histLines (data : List Row) : List String :=
  if data.length ≤ 10 then data.map formatPoint
  else (data.take 5).map formatPoint ++ ["..."] ++
    (data.drop (data.length - 5)).map formatPoint

/-- Dict access `d[k]` where the value is a string (every access the agent
performs is on a key the dict carries; missing keys default harmlessly). -/
def getStr (d : Dict) (k : String) : String :=
  match List.lookup k d with
  | some (Val.str s) => s
  | _ => ""

/-- Dict access `d[k]` for integer values. -/
def getInt (d : Dict) (k : String) : Int :=
  match List.lookup k d with
  | some (Val.int n) => n
  | _ => 0

/-- Dict access `d[k]` for numeric (float-modelled) values. -/
def getNum (d : Dict) (k : String) : Rat :=
  match List.lookup k d with
  | some (Val.num q) => q
  | _ => 0

/-- Dict access `d[k]` for a row list. -/
def getRows (d : Dict) (k : String) : List Row :=
  match List.lookup k d with
  | some (Val.rows rs) => rs
  | _ => []

/-- Python `k in d`. -/
def hasKey (d : Dict) (k : String) : Bool :=
  (List.lookup k d).isSome

/-- The historical success formatting of `handle_request` (lines 139–154):
header, data-point count, blank line, then the `histLines` rows each with a
trailing newline. -/
def formatHistorical (symbol : String) (result : Dict) : String :=
  "Historical data for " ++ symbol ++ " (" ++ getStr result "period" ++ ", " ++
      getStr result "interval" ++ "):\n" ++
    "Data points: " ++ intStr (getInt result "data_points") ++ "\n\n" ++
    String.join ((histLines (getRows result "data")).map (fun l => l ++ "\n"))

/-- The quote success formatting of `handle_request` (lines 169–176). -/
def formatQuote (result : Dict) : String :=
  getStr result "symbol" ++ " on " ++ getStr result "date" ++ ":\n  Open:  " ++
    fmt2 (getNum result "open") ++ "\n  High:  " ++ fmt2 (getNum result "high") ++
    "\n  Low:   " ++ fmt2 (getNum result "low") ++ "\n  Close: " ++
    fmt2 (getNum result "close") ++ "\n  Vol:   " ++ intStr (getInt result "volume")

/-- The historical trigger list of `handle_request`. -/
def historicalKeywords : List String :=
  ["historical", "history", "past", "data", "chart"]

/-- Intent classification: any historical keyword occurs as a substring of the
lowercased input. -/
def is_historical (low : String) : Bool :=
  historicalKeywords.any (fun k => pyContains low k)

/-- The ordered `period_keywords` mapping of `handle_request`. -/
def periodKeywords : List (String × List String) :=
  [("1d", ["1d", "1 day", "daily"]),
   ("5d", ["5d", "5 day", "5 days"]),
   ("1mo", ["1mo", "1 month", "monthly"]),
   ("3mo", ["3mo", "3 month", "3 months", "quarter", "quarterly"]),
   ("6mo", ["6mo", "6 month", "6 months"]),
   ("1y", ["1y", "1 year", "yearly", "year"]),
   ("2y", ["2y", "2 year", "2 years"]),
   ("5y", ["5y", "5 year", "5 years"]),
   ("max", ["max", "maximum", "all time"])]

/-- Period inference: the first entry of `periodKeywords` one of whose trigger
substrings occurs in the lowercased input; default "1mo". -/
def inferPeriod (low : String) : String :=
  match periodKeywords.find? (fun pr => pr.2.any (fun k => pyContains low k)) with
  | some pr => pr.1
  | none => "1mo"

/-- Interval inference: the if/elif chain of `handle_request`, default "1d". -/
def inferInterval (low : String) : String :=
  if pyContains low "1m" || pyContains low "minute" then "1m"
  else if pyContains low "5m" || pyContains low "5 minute" then "5m"
  else if pyContains low "1h" || pyContains low "hour" then "1h"
  else if pyContains low "1d" || pyContains low "daily" then "1d"
  else if pyContains low "1wk" || pyContains low "weekly" then "1wk"
  else "1d"

/-- `StockAgent.handle_request`.  The returned pair is the response string
together with the trace of tool invocations issued through the MCP client
(name and arguments), which the Python code performs as a side effect. -/
def handle_request (fetch : Fetch) (raw : String) : String × List (String × Args) :=
  let stripped := pyStrip raw
  let original_input := stripped
  let low := pyLower stripped
  if low = "" then ("Please provide a stock symbol or request.", [])
  else
    let symbol := extract_symbol original_input
    let isHist := is_historical low
    let period := if isHist then inferPeriod low else "1mo"
    let interval := inferInterval low
    if isHist then
      let args : Args := [("symbol", symbol), ("period", period), ("interval", interval)]
      let result := (server fetch).call_tool "get_stock_historical_data" args
      let resp :=
        if hasKey result "error" then
          "Error fetching historical data for " ++ symbol ++ ": " ++ getStr result "error"
        else formatHistorical symbol result
      (resp, [("get_stock_historical_data", args)])
    else
      let args : Args := [("symbol", symbol)]
      let result := (server fetch).call_tool "get_stock_quote" args
      let resp :=
        if hasKey result "error" then
          "Error fetching quote for " ++ symbol ++ ": " ++ getStr result "error"
        else formatQuote result
      (resp, [("get_stock_quote", args)])

/-! ## Concrete instances used to witness the theorems -/

/-- A provider that always raises. -/
def failFetch : Fetch := fun _ _ _ => .error "boom"

/-- A provider that always returns an empty result set. -/
def emptyFetch : Fetch := fun _ _ _ => .ok []

/-- A registry with a raising callable and a succeeding one. -/
def sampleServer : MCPServer :=
  ⟨"t", [("boom", fun _ => .error "kaboom"), ("fine", fun _ => .ok [])]⟩

/-- One concrete OHLCV row. -/
def sampleRow : Row :=
  { date := "2024-01-02", open_ := 1, high := 2, low := 1/2, close := 3/2,
    volume := 1000000 }

/-- Twelve concrete rows. -/
def rows12 : List Row := List.replicate 12 sampleRow

/-! ## Helper lemmas -/

/-- Every formatted row line carries at least its 16 literal characters. -/
theorem formatPoint_length (p : Row) : 16 ≤ (formatPoint p).length := by
  have h1 : (": O=" : String).length = 4 := rfl
  have h2 : (" H=" : String).length = 3 := rfl
  have h3 : (" L=" : String).length = 3 := rfl
  have h4 : (" C=" : String).length = 3 := rfl
  have h5 : (" V=" : String).length = 3 := rfl
  simp only [formatPoint, String.length_append]
  omega

/-- A formatted row line is never the ellipsis line. -/
theorem formatPoint_ne_ellipsis (p : Row) : formatPoint p ≠ "..." := by
  intro h
  have h16 := formatPoint_length p
  rw [h] at h16
  have h3 : ("..." : String).length = 3 := rfl
  omega

/-- The ellipsis line never occurs among formatted rows. -/
theorem ellipsis_not_mem_map (l : List Row) : ("..." : String) ∉ l.map formatPoint := by
  intro hm
  obtain ⟨p, _, hp⟩ := List.mem_map.1 hm
  exact formatPoint_ne_ellipsis p hp

/-- The ellipsis line has count zero among formatted rows. -/
theorem ellipsis_count_zero (l : List Row) : (l.map formatPoint).count "..." = 0 :=
  List.count_eq_zero.2 (ellipsis_not_mem_map l)

/-! ## Claim theorems -/

/-- C1 (code bug evaluation): on the input "quote MSFT" the interpreter does
classify the intent as quote (no historical keyword fires), but the extracted
symbol is "QUOTE", not "MSFT": the code uppercases the whole input before
scanning, so the five-letter word "quote" becomes the first `[A-Z]{1,5}` token,
contradicting the docstring's "looks for uppercase words" and the spec's
expected symbol. -/
theorem extract_symbol_quote_msft :
    extract_symbol "quote MSFT" = "QUOTE" ∧
    extract_symbol "quote MSFT" ≠ "MSFT" ∧
    is_historical (pyLower (pyStrip "quote MSFT")) = false ∧
    ∀ fetch : Fetch, (handle_request fetch "quote MSFT").2 =
      [("get_stock_quote", [("symbol", "QUOTE")])] :=
  ⟨by decide, by decide, by decide, fun _ => rfl⟩

/-- C2: `call_tool` never propagates an exception: an unregistered name yields
an error dict naming the missing tool, a callable that raises has its message
wrapped in an error dict, and a normal result is passed through; every case
returns a plain `Dict`. -/
theorem call_tool_error_handling (s : MCPServer) (n : String) (args : Args) :
    (List.lookup n s.tools = none →
      s.call_tool n args =
        [("error", Val.str ("Tool " ++ quoteMark ++ n ++ quoteMark ++ " not found."))]) ∧
    (∀ f e, List.lookup n s.tools = some f → f args = Except.error e →
      s.call_tool n args = [("error", Val.str ("Tool execution failed: " ++ e))]) ∧
    (∀ f d, List.lookup n s.tools = some f → f args = Except.ok d →
      s.call_tool n args = d) := by
  refine ⟨fun h => ?_, fun f e h1 h2 => ?_, fun f d h1 h2 => ?_⟩ <;>
    simp [MCPServer.call_tool, *]

/-- Witness for C2 on `sampleServer`: an unknown name, a raising callable, and
a succeeding callable. -/
theorem call_tool_error_handling_witness :
    sampleServer.call_tool "nope" [] =
      [("error", Val.str ("Tool " ++ quoteMark ++ "nope" ++ quoteMark ++ " not found."))] ∧
    sampleServer.call_tool "boom" [] =
      [("error", Val.str "Tool execution failed: kaboom")] ∧
    sampleServer.call_tool "fine" [] = [] :=
  ⟨(call_tool_error_handling sampleServer "nope" []).1 rfl,
   (call_tool_error_handling sampleServer "boom" []).2.1
     (fun _ => .error "kaboom") "kaboom" rfl rfl,
   (call_tool_error_handling sampleServer "fine" []).2.2
     (fun _ => .ok []) [] rfl rfl⟩

/-- C3: the formatter prints all rows, in order and with no "..." line, when
there are at most 10 of them, and exactly the first five, one "..." line and
the last five when there are more than 10. -/
theorem response_formatter_head_tail (data : List Row) :
    (data.length ≤ 10 →
      histLines data = data.map formatPoint ∧ "..." ∉ histLines data) ∧
    (10 < data.length →
      histLines data = (data.take 5).map formatPoint ++ ["..."] ++
        (data.drop (data.length - 5)).map formatPoint) := by
  constructor
  · intro h
    have hl : histLines data = data.map formatPoint := by
      simp only [histLines, if_pos h]
    exact ⟨hl, hl ▸ ellipsis_not_mem_map data⟩
  · intro h
    simp only [histLines, if_neg (by omega : ¬ data.length ≤ 10)]

/-- Witness for C3 at one row (boundary side) and at twelve rows. -/
theorem response_formatter_head_tail_witness :
    (histLines [sampleRow] = [sampleRow].map formatPoint ∧
      "..." ∉ histLines [sampleRow]) ∧
    histLines rows12 = (rows12.take 5).map formatPoint ++ ["..."] ++
      (rows12.drop (rows12.length - 5)).map formatPoint :=
  ⟨(response_formatter_head_tail [sampleRow]).1 (by decide),
   (response_formatter_head_tail rows12).2 (by decide)⟩

/-- C4: with exactly 12 rows the formatted listing is the first five rows, the
"..." line, and the last five rows — 11 lines in all, exactly one of them the
"..." separator, and never all 12 rows. -/
theorem response_formatter_twelve_rows (data : List Row) (h : data.length = 12) :
    histLines data = (data.take 5).map formatPoint ++ ["..."] ++
      (data.drop 7).map formatPoint ∧
    (histLines data).length = 11 ∧
    (histLines data).count "..." = 1 ∧
    histLines data ≠ data.map formatPoint := by
  have hl : histLines data = (data.take 5).map formatPoint ++ ["..."] ++
      (data.drop 7).map formatPoint := by
    simp only [histLines, if_neg (by omega : ¬ data.length ≤ 10), h]
    norm_num
  have hlen : (histLines data).length = 11 := by
    rw [hl]
    simp [List.length_append, List.length_take, List.length_drop, h]
  refine ⟨hl, hlen, ?_, ?_⟩
  · rw [hl]
    simp only [List.count_append]
    rw [ellipsis_count_zero (data.take 5), ellipsis_count_zero (data.drop 7)]
    decide
  · intro he
    have := congrArg List.length he
    rw [hlen] at this
    simp [List.length_map, h] at this

/-- Witness for C4 at twelve concrete rows. -/
theorem response_formatter_twelve_rows_witness :
    histLines rows12 = (rows12.take 5).map formatPoint ++ ["..."] ++
      (rows12.drop 7).map formatPoint ∧
    (histLines rows12).length = 11 ∧
    (histLines rows12).count "..." = 1 ∧
    histLines rows12 ≠ rows12.map formatPoint :=
  response_formatter_twelve_rows rows12 (by decide)

/-- C5: "MSFT historical data 1 month" is classified historical with symbol
"MSFT", and the historical tool is invoked with period "1mo" and the default
interval "1d". -/
theorem handle_request_msft_historical (fetch : Fetch) :
    (handle_request fetch "MSFT historical data 1 month").2 =
      [("get_stock_historical_data",
        [("symbol", "MSFT"), ("period", "1mo"), ("interval", "1d")])] ∧
    is_historical (pyLower (pyStrip "MSFT historical data 1 month")) = true ∧
    extract_symbol (pyStrip "MSFT historical data 1 month") = "MSFT" :=
  ⟨rfl, by decide, by decide⟩

/-- C6: first-match period inference resolves "NVDA 1 year historical data" to
"1y", "TSLA past 5 days" to "5d" (the "past" trigger and the "5 day" trigger
both fire), and "GOOGL quarterly data" to "3mo" (the "quarter" trigger). -/
theorem period_inference_examples (fetch : Fetch) :
    (handle_request fetch "NVDA 1 year historical data").2 =
      [("get_stock_historical_data",
        [("symbol", "NVDA"), ("period", "1y"), ("interval", "1d")])] ∧
    (handle_request fetch "TSLA past 5 days").2 =
      [("get_stock_historical_data",
        [("symbol", "TSLA"), ("period", "5d"), ("interval", "1d")])] ∧
    (handle_request fetch "GOOGL quarterly data").2 =
      [("get_stock_historical_data",
        [("symbol", "GOOGL"), ("period", "3mo"), ("interval", "1d")])] :=
  ⟨rfl, rfl, rfl⟩

/-- C7: when the provider raises, each tool catches the exception and returns
an error dict whose message ends with the original failure message verbatim
("Failed to fetch data: e" resp. "Failed to fetch historical data: e"); the
tools are total, so no exception propagates. -/
theorem tools_catch_provider_failure (fetch : Fetch) (args : Args) (e : String) :
    (fetch (pyUpper (argGet args "symbol" "AAPL")) "1d" "1d" = Except.error e →
      get_stock_quote_tool fetch args =
        errKV (pyUpper (argGet args "symbol" "AAPL")) ("Failed to fetch data: " ++ e)) ∧
    (fetch (pyUpper (argGet args "symbol" "AAPL")) (argGet args "period" "1mo")
        (argGet args "interval" "1d") = Except.error e →
      get_stock_historical_data_tool fetch args =
        errKV (pyUpper (argGet args "symbol" "AAPL"))
          ("Failed to fetch historical data: " ++ e)) := by
  constructor <;> intro h <;>
    simp [get_stock_quote_tool, get_stock_historical_data_tool, h]

/-- Witness for C7 with an always-raising provider. -/
theorem tools_catch_provider_failure_witness :
    get_stock_quote_tool failFetch [] = errKV "AAPL" "Failed to fetch data: boom" ∧
    get_stock_historical_data_tool failFetch [] =
      errKV "AAPL" "Failed to fetch historical data: boom" :=
  ⟨(tools_catch_provider_failure failFetch [] "boom").1 rfl,
   (tools_catch_provider_failure failFetch [] "boom").2 rfl⟩

/-- C8: when the provider returns no rows, each tool returns the error dict
`{"symbol": S, "error": "No data found for symbol 'S'."}` — an error payload
whose message contains the symbol, with no data fields — never a success
record. -/
theorem tools_empty_result_error (fetch : Fetch) (args : Args) :
    (fetch (pyUpper (argGet args "symbol" "AAPL")) "1d" "1d" = Except.ok [] →
      get_stock_quote_tool fetch args =
        errKV (pyUpper (argGet args "symbol" "AAPL"))
          ("No data found for symbol " ++ quoteMark ++
            pyUpper (argGet args "symbol" "AAPL") ++ quoteMark ++ ".")) ∧
    (fetch (pyUpper (argGet args "symbol" "AAPL")) (argGet args "period" "1mo")
        (argGet args "interval" "1d") = Except.ok [] →
      get_stock_historical_data_tool fetch args =
        errKV (pyUpper (argGet args "symbol" "AAPL"))
          ("No data found for symbol " ++ quoteMark ++
            pyUpper (argGet args "symbol" "AAPL") ++ quoteMark ++ ".")) := by
  constructor <;> intro h <;>
    simp [get_stock_quote_tool, get_stock_historical_data_tool, h]

/-- Witness for C8 with an always-empty provider and a supplied symbol. -/
theorem tools_empty_result_error_witness :
    get_stock_quote_tool emptyFetch [("symbol", "msft")] =
      errKV "MSFT" ("No data found for symbol " ++ quoteMark ++ "MSFT" ++ quoteMark ++ ".") ∧
    get_stock_historical_data_tool emptyFetch [("symbol", "msft")] =
      errKV "MSFT" ("No data found for symbol " ++ quoteMark ++ "MSFT" ++ quoteMark ++ ".") :=
  ⟨(tools_empty_result_error emptyFetch [("symbol", "msft")]).1 rfl,
   (tools_empty_result_error emptyFetch [("symbol", "msft")]).2 rfl⟩

/-- C9: both tools take the symbol argument with default "AAPL" and uppercase
it, and every returned dict — success or error — carries that uppercased
symbol in its "symbol" field. -/
theorem tools_symbol_normalization (fetch : Fetch) (args : Args) :
    List.lookup "symbol" (get_stock_quote_tool fetch args) =
      some (Val.str (pyUpper (argGet args "symbol" "AAPL"))) ∧
    List.lookup "symbol" (get_stock_historical_data_tool fetch args) =
      some (Val.str (pyUpper (argGet args "symbol" "AAPL"))) ∧
    (List.lookup "symbol" args = none → argGet args "symbol" "AAPL" = "AAPL") := by
  refine ⟨?_, ?_, fun h => by simp [argGet, h]⟩
  · cases hf : fetch (pyUpper (argGet args "symbol" "AAPL")) "1d" "1d" with
    | error e => simp [get_stock_quote_tool, hf, errKV]
    | ok rows =>
      cases rows with
      | nil => simp [get_stock_quote_tool, hf, errKV]
      | cons r rs => simp [get_stock_quote_tool, hf]
  · cases hf : fetch (pyUpper (argGet args "symbol" "AAPL"))
        (argGet args "period" "1mo") (argGet args "interval" "1d") with
    | error e => simp [get_stock_historical_data_tool, hf, errKV]
    | ok rows =>
      cases rows with
      | nil => simp [get_stock_historical_data_tool, hf, errKV]
      | cons r rs => simp [get_stock_historical_data_tool, hf]

/-- Witness for C9: a lowercase supplied symbol is uppercased, and the absent
symbol defaults to "AAPL". -/
theorem tools_symbol_normalization_witness :
    List.lookup "symbol" (get_stock_quote_tool emptyFetch [("symbol", "msft")]) =
      some (Val.str "MSFT") ∧
    List.lookup "symbol" (get_stock_historical_data_tool emptyFetch [("symbol", "msft")]) =
      some (Val.str "MSFT") ∧
    argGet ([] : Args) "symbol" "AAPL" = "AAPL" :=
  ⟨(tools_symbol_normalization emptyFetch [("symbol", "msft")]).1,
   (tools_symbol_normalization emptyFetch [("symbol", "msft")]).2.1,
   (tools_symbol_normalization emptyFetch []).2.2 rfl⟩

/-- C10: an input that strips to the empty string makes `handle_request`
return the fixed prompt and invoke no tool, although `extract_symbol` on the
stripped input would default to the placeholder "AAPL". -/
theorem handle_request_blank_input (fetch : Fetch) (s : String)
    (h : pyStrip s = "") :
    handle_request fetch s = ("Please provide a stock symbol or request.", []) ∧
    extract_symbol (pyStrip s) = "AAPL" := by
  have hlow : pyLower "" = "" := rfl
  constructor
  · simp [handle_request, h, hlow]
  · rw [h]; decide

/-- Witness for C10 on a whitespace-only input. -/
theorem handle_request_blank_input_witness :
    handle_request failFetch "  \t " = ("Please provide a stock symbol or request.", []) ∧
    extract_symbol (pyStrip "  \t ") = "AAPL" :=
  handle_request_blank_input failFetch "  \t " (by decide)
